import Mathlib

/-!
Shallow embedding of the `source-notion` connector (repository `ConnectAI`)
for checking its natural-language specification.

Conventions of the embedding:
* Python JSON values are modelled by the inductive type `PyJson`; Python
  dictionaries become association lists (first binding wins, as keys are
  unique in a real dict).
* Machine floats in the retry-delay arithmetic are modelled by `ℚ`; every
  operation involved (multiplication by a power of two, `min`) is exact on
  the values the specification mentions.
* Code that can raise a Python exception is embedded as a function into
  `Except PyExc _`; a total Lean function returning `.ok _` everywhere is
  the embedding of "never raises".
-/

namespace NotionSrc

/-- A Python/JSON value as the connector sees it (`dict`s as assoc lists). -/
inductive PyJson where
  | jnull : PyJson
  | jbool : Bool → PyJson
  | jnum : Int → PyJson
  | jstr : String → PyJson
  | jarr : List PyJson → PyJson
  | jobj : List (String × PyJson) → PyJson

/-- Python exceptions that the embedded fragments can raise. -/
inductive PyExc where
  | attributeError : PyExc
  | typeError : PyExc
deriving DecidableEq, Repr

/-- `dict.get(key)`: first binding for `key`, if any (dict keys are unique). -/
def dictGet (fields : List (String × PyJson)) (key : String) : Option PyJson :=
  match fields with
  | [] => none
  | (k, v) :: rest => if k = key then some v else dictGet rest key

/-- Python truthiness of a JSON value (`bool(x)`). -/
def pyTruthy : PyJson → Bool
  | .jnull => false
  | .jbool b => b
  | .jnum n => n ≠ 0
  | .jstr s => s ≠ ""
  | .jarr xs => ¬xs.isEmpty
  | .jobj fs => ¬fs.isEmpty

/-- Python `str(x)` rendering, used in f-string interpolation.  Strings
render as themselves and `None` as `"None"`; the remaining cases are an
approximate rendering (no claim constrains their exact text). -/
def pyStr : PyJson → String
  | .jnull => "None"
  | .jbool b => if b then "True" else "False"
  | .jnum n => toString n
  | .jstr s => s
  | .jarr _ => "[...]"
  | .jobj _ => "\x7b...\x7d"

/-! ## `client.py` — `RetryHandler` retryable statuses and delay -/

/-- `RetryHandler.RETRYABLE_STATUS_CODES` from `client.py`. -/
def RetryHandler.RETRYABLE_STATUS_CODES : List Nat := [429, 500, 502, 503, 504]

/-- `RetryHandler.should_retry`: membership of the response status in the
handler's retryable set. -/
def should_retry (status : Nat) : Bool :=
  status ∈ RetryHandler.RETRYABLE_STATUS_CODES

/-- `NotionAPIError.RETRYABLE_STATUS_CODES` from `utils.py`. -/
def NotionAPIError.RETRYABLE_STATUS_CODES : List Nat := [409, 429, 500, 502, 503, 504]

/-- `NotionAPIError.is_retryable`: membership of the error's status code in
the error taxonomy's retryable set. -/
def is_retryable (status_code : Nat) : Bool :=
  status_code ∈ NotionAPIError.RETRYABLE_STATUS_CODES

/-- `RetryHandler.calculate_delay` from `client.py`; float arithmetic is
modelled exactly over `ℚ`. -/
def calculate_delay (base_delay max_delay : ℚ) (attempt : Nat)
    (retry_after : Option ℚ) : ℚ :=
  match retry_after with
  | some r => min r max_delay
  | none => min (base_delay * 2 ^ attempt) max_delay

/-! ## `utils.py` — Notion-ID helpers -/

/-- `normalize_notion_id`: `notion_id.replace("-", "")`. -/
def normalize_notion_id (notion_id : String) : String :=
  ⟨notion_id.data.filter (fun c => c ≠ '-')⟩

/-- `format_notion_id`: strip dashes, and re-insert them in the 8-4-4-4-12
grouping when exactly 32 characters remain; otherwise return the input. -/
def format_notion_id (notion_id : String) : String :=
  let clean := notion_id.data.filter (fun c => c ≠ '-')
  if clean.length = 32 then
    ⟨clean.take 8 ++ '-' :: (clean.drop 8).take 4 ++ '-' ::
      (clean.drop 12).take 4 ++ '-' :: (clean.drop 16).take 4 ++ '-' ::
      clean.drop 20⟩
  else notion_id

/-- The canonical dashed form of a 32-character id, written from the spec's
words ("the canonical dashed 8-4-4-4-12 grouping of those 32 characters")
for comparison against `format_notion_id`. -/
def canonicalDashedForm (cs : List Char) : String :=
  ⟨cs.take 8 ++ '-' :: (cs.drop 8).take 4 ++ '-' :: (cs.drop 12).take 4 ++
    '-' :: (cs.drop 16).take 4 ++ '-' :: cs.drop 20⟩

/-! ## `config.py` — credentials, `get_token`, `get_auth_headers` -/

/-- The credential union of `config.py` (`TokenCredentials` /
`OAuth2Credentials`), after field validation. -/
inductive Credentials where
  | token (token : String)
  | oauth2 (client_id client_secret access_token : String)
      (refresh_token : Option String)
deriving DecidableEq, Repr

/-- `NotionConfig.get_token`. -/
def get_token : Credentials → String
  | .token t => t
  | .oauth2 _ _ at_ _ => at_

/-- `NotionConfig.get_auth_headers`: the three-entry header dictionary. -/
def get_auth_headers (creds : Credentials) (api_version : String) :
    List (String × String) :=
  [("Authorization", "Bearer " ++ get_token creds),
   ("Notion-Version", api_version),
   ("Content-Type", "application/json")]

/-! ## `utils.py` — `safe_get_nested` -/

/-- `safe_get_nested`: follow `keys` through nested dicts; the moment the
current value is not a dict, or a `get` produces `None` (key missing or
explicitly bound to null), return `default`. -/
def safe_get_nested (data : PyJson) (keys : List String) (default : PyJson) :
    PyJson :=
  match keys with
  | [] => data
  | k :: ks =>
    match data with
    | .jobj fields =>
      match dictGet fields k with
      | none => default
      | some .jnull => default
      | some v => safe_get_nested v ks default
    | _ => default

/-! ## `utils.py` — `parse_iso_datetime` and the Python `datetime` model

Python `datetime` values are modelled by `NDateTime`: a Gregorian calendar
date, a time of day, and an optional UTC offset in minutes (`none` models a
timezone-naive value).  `datetime.fromisoformat` is modelled by `pyFromIso`
over the common ISO-8601 profile it accepts (`YYYY-MM-DD`, optionally
followed by a `T` or space separator, `HH:MM[:SS[.1-6 fraction digits]]`,
and an optional `+HH:MM`/`-HH:MM` offset), and `datetime.strptime` with
format `%Y-%m-%d` by `strptimeYMD` (which also accepts one-digit month and
day fields, as `%m`/`%d` do). -/

/-- A Python `datetime`: calendar fields plus an optional UTC offset in
minutes (`none` = timezone-naive). -/
structure NDateTime where
  year : Nat
  month : Nat
  day : Nat
  hour : Nat
  minute : Nat
  second : Nat
  microsecond : Nat
  tzOffset : Option Int
deriving DecidableEq, Repr

/-- Leap year in the proleptic Gregorian calendar. -/
def isLeap (y : Nat) : Bool :=
  (y % 4 == 0 && y % 100 != 0) || y % 400 == 0

/-- Length of month `m` of year `y`. -/
def daysInMonth (y m : Nat) : Nat :=
  if m = 2 then (if isLeap y then 29 else 28)
  else if m = 4 ∨ m = 6 ∨ m = 9 ∨ m = 11 then 30
  else 31

/-- Days in the years before year `y` (proleptic Gregorian, `y ≥ 1`). -/
def daysBeforeYear (y : Nat) : Nat :=
  (y - 1) * 365 + (y - 1) / 4 - (y - 1) / 100 + (y - 1) / 400

/-- Days in the months of year `y` before month `m`. -/
def daysBeforeMonth (y m : Nat) : Nat :=
  (List.range (m - 1)).foldl (fun acc i => acc + daysInMonth y (i + 1)) 0

/-- `date.toordinal()`: day number of the date, with 0001-01-01 as day 1. -/
def toOrdinal (dt : NDateTime) : Nat :=
  daysBeforeYear dt.year + daysBeforeMonth dt.year dt.month + dt.day

/-- The instant of a datetime in microseconds, reading a naive value's
offset as zero.  For two naive values this orders exactly as Python's
field-by-field comparison (all parsed fields are in range, so the encoding
is injective and monotone); for two aware values it orders exactly as
Python's offset-adjusted comparison. -/
def instantUs (dt : NDateTime) : Int :=
  (((toOrdinal dt : Int) * 1440 + dt.hour * 60 + dt.minute -
      dt.tzOffset.getD 0) * 60 + dt.second) * 1000000 + dt.microsecond

/-- Both datetimes naive, or both aware: Python can compare them; a mixed
pair raises `TypeError`. -/
def sameAware (a b : NDateTime) : Bool :=
  a.tzOffset.isSome == b.tzOffset.isSome

/-- Valid calendar date (what `datetime`'s constructor accepts). -/
def dateValid (y mo d : Nat) : Bool :=
  1 ≤ y && 1 ≤ mo && mo ≤ 12 && 1 ≤ d && d ≤ daysInMonth y mo

/-- Numeric value of a decimal digit character. -/
def digitVal (c : Char) : Option Nat :=
  if '0' ≤ c ∧ c ≤ '9' then some (c.toNat - '0'.toNat) else none

/-- Read exactly `n` decimal digits, returning their value and the rest. -/
def readDigitsAux : Nat → Nat → List Char → Option (Nat × List Char)
  | 0, acc, cs => some (acc, cs)
  | _ + 1, _, [] => none
  | n + 1, acc, c :: cs =>
    match digitVal c with
    | some d => readDigitsAux n (acc * 10 + d) cs
    | none => none

/-- Read exactly `n` decimal digits. -/
def readDigits (n : Nat) (cs : List Char) : Option (Nat × List Char) :=
  readDigitsAux n 0 cs

/-- Read one or two decimal digits (greedy), as `strptime`'s `%m`/`%d` do. -/
def readOneOrTwoDigits (cs : List Char) : Option (Nat × List Char) :=
  match cs with
  | c1 :: c2 :: rest =>
    match digitVal c1, digitVal c2 with
    | some d1, some d2 => some (d1 * 10 + d2, rest)
    | some d1, none => some (d1, c2 :: rest)
    | none, _ => none
  | [c1] =>
    match digitVal c1 with
    | some d1 => some (d1, [])
    | none => none
  | [] => none

/-- Fractional-second digits after the `.`: one to six digits, scaled to
microseconds. -/
def readFrac (cs : List Char) : Option (Nat × List Char) :=
  let ds := cs.takeWhile (fun c => (digitVal c).isSome)
  if ds.length = 0 ∨ 6 < ds.length then none
  else
    let v := ds.foldl (fun acc c => acc * 10 + ((digitVal c).getD 0)) 0
    some (v * 10 ^ (6 - ds.length), cs.drop ds.length)

/-- A `+HH:MM` / `-HH:MM` trailing UTC offset (sign already consumed). -/
def readOffsetTail (sign : Int) (cs : List Char) : Option Int :=
  match readDigits 2 cs with
  | some (oh, ':' :: cs1) =>
    match readDigits 2 cs1 with
    | some (om, []) =>
      if oh ≤ 23 && om ≤ 59 then some (sign * (oh * 60 + om)) else none
    | _ => none
  | _ => none

/-- The time-of-day (and optional offset) part of an ISO string, after the
separator: `HH:MM[:SS[.ffffff]][±HH:MM]`. -/
def pyFromIsoTime (y mo d : Nat) (cs : List Char) : Option NDateTime :=
  match readDigits 2 cs with
  | some (h, ':' :: cs1) =>
    match readDigits 2 cs1 with
    | some (mi, cs2) =>
      let secPart : Option (Nat × Nat × List Char) :=
        match cs2 with
        | ':' :: cs3 =>
          match readDigits 2 cs3 with
          | some (s, '.' :: cs4) =>
            match readFrac cs4 with
            | some (us, cs5) => some (s, us, cs5)
            | none => none
          | some (s, cs4) => some (s, 0, cs4)
          | none => none
        | _ => some (0, 0, cs2)
      match secPart with
      | none => none
      | some (s, us, cs6) =>
        if h ≤ 23 && mi ≤ 59 && s ≤ 59 then
          match cs6 with
          | [] => some ⟨y, mo, d, h, mi, s, us, none⟩
          | '+' :: cs7 =>
            (readOffsetTail 1 cs7).map (fun off => ⟨y, mo, d, h, mi, s, us, some off⟩)
          | '-' :: cs7 =>
            (readOffsetTail (-1) cs7).map (fun off => ⟨y, mo, d, h, mi, s, us, some off⟩)
          | _ => none
        else none
    | none => none
  | _ => none

/-- Model of `datetime.fromisoformat` on the profile described above. -/
def pyFromIso (cs : List Char) : Option NDateTime :=
  match readDigits 4 cs with
  | some (y, '-' :: cs1) =>
    match readDigits 2 cs1 with
    | some (mo, '-' :: cs2) =>
      match readDigits 2 cs2 with
      | some (d, cs3) =>
        if dateValid y mo d then
          match cs3 with
          | [] => some ⟨y, mo, d, 0, 0, 0, 0, none⟩
          | sep :: cs4 =>
            if sep = 'T' ∨ sep = ' ' then pyFromIsoTime y mo d cs4 else none
        else none
      | none => none
    | _ => none
  | _ => none

/-- Model of `datetime.strptime(s, "%Y-%m-%d")`: four-digit year, one- or
two-digit month and day, nothing after, and a real calendar date. -/
def strptimeYMD (cs : List Char) : Option NDateTime :=
  match readDigits 4 cs with
  | some (y, '-' :: cs1) =>
    match readOneOrTwoDigits cs1 with
    | some (mo, '-' :: cs2) =>
      match readOneOrTwoDigits cs2 with
      | some (d, []) =>
        if dateValid y mo d then some ⟨y, mo, d, 0, 0, 0, 0, none⟩ else none
      | _ => none
    | _ => none
  | _ => none

/-- `parse_iso_datetime` from `utils.py`: empty input parses to nothing; a
trailing `Z` is rewritten to `+00:00`; then `fromisoformat`, falling back
to `strptime` with `%Y-%m-%d` on the rewritten string; any failure yields
`none` rather than an error. -/
def parse_iso_datetime (date_string : String) : Option NDateTime :=
  if date_string = "" then none
  else
    let cs :=
      if date_string.data.getLast? = some 'Z' then
        date_string.data.dropLast ++ ['+', '0', '0', ':', '0', '0']
      else date_string.data
    match pyFromIso cs with
    | some dt => some dt
    | none => strptimeYMD cs

/-! ## `streams.py` — `StreamState.get_last_sync_time` and
`BaseStream._should_include_record` -/

/-- `StreamState.get_last_sync_time`: read the `last_sync_time` key; a
falsy value means no stored time; a truthy string is parsed (parse failure
also yields no stored time); a truthy non-string reaches
`parse_iso_datetime`, whose `.endswith` call raises `AttributeError`. -/
def get_last_sync_time (state : List (String × PyJson)) :
    Except PyExc (Option NDateTime) :=
  match dictGet state "last_sync_time" with
  | none => .ok none
  | some v =>
    if pyTruthy v then
      match v with
      | .jstr s => .ok (parse_iso_datetime s)
      | _ => .error .attributeError
    else .ok none

/-- `BaseStream._should_include_record` from `streams.py`.  The record and
the stream state are dictionaries; the result is `.error` exactly where the
Python code raises (`AttributeError` from parsing a truthy non-string
value, `TypeError` from comparing a naive with an aware datetime). -/
def should_include_record (supports_incremental : Bool)
    (cursor_field : Option String) (state : List (String × PyJson))
    (record : List (String × PyJson)) (sync_mode : String) :
    Except PyExc Bool :=
  if sync_mode ≠ "incremental" ∨ supports_incremental = false then .ok true
  else
    match cursor_field with
    | none => .ok true
    | some cf =>
      if cf = "" then .ok true
      else
        match dictGet record cf with
        | none => .ok true
        | some cv =>
          if pyTruthy cv = false then .ok true
          else
            match get_last_sync_time state with
            | .error e => .error e
            | .ok none => .ok true
            | .ok (some last_sync) =>
              match cv with
              | .jstr s =>
                match parse_iso_datetime s with
                | none => .ok true
                | some record_time =>
                  if sameAware record_time last_sync then
                    .ok (instantUs record_time > instantUs last_sync)
                  else .error .typeError
              | _ => .error .attributeError

/-! ## `auth.py` — `NotionAuthenticator.validate` -/

/-- `AuthenticationResult` from `auth.py`. -/
structure AuthenticationResult where
  success : Bool
  user_info : Option PyJson
  workspace_info : Option PyJson
  error : Option PyJson

/-- The observable outcome of the one HTTP GET that `validate()` issues:
either a response (status, raw body text, and the body's JSON parse —
`none` when the text is not valid JSON), or a request-level failure.
`requestFailure` covers every other `requests.RequestException`, including
the `HTTPError` from `raise_for_status` and the JSON-decode error that
modern `requests` raises as a `RequestException` subclass. -/
inductive HttpOutcome where
  | response (status : Nat) (text : String) (body : Option PyJson)
  | timeout
  | connectionFailure
  | requestFailure (msg : String)

/-- Stands for the text of the JSON-decode error the HTTP library raises
when a response body is not valid JSON (the exact text is the library's). -/
def jsonDecodeFailureText : String := "Expecting value: line 1 column 1 (char 0)"

/-- Stands for the text of the `HTTPError` that `raise_for_status` raises
for a 4xx/5xx status (the exact text is the library's). -/
def httpErrorText (status : Nat) : String :=
  toString status ++ " Error for url: https://api.notion.com/v1/users/me"

/-- Python `x == "lit"` for an optional JSON value: true exactly when the
value is present and is that string. -/
def isStrEq (v : Option PyJson) (s : String) : Bool :=
  match v with
  | some (.jstr t) => t = s
  | _ => false

/-- The workspace-info extraction on `validate()`'s success path: when the
user object's `type` is `"bot"`, read `bot.workspace_name` (an absent `bot`
key defaults to an empty dict; a non-dict `bot` value makes `.get` raise
`AttributeError`); a truthy workspace name is wrapped as a one-key dict. -/
def botWorkspace (fields : List (String × PyJson)) : Except PyExc (Option PyJson) :=
  if isStrEq (dictGet fields "type") "bot" then
    match dictGet fields "bot" with
    | none => .ok none
    | some (.jobj bs) =>
      match dictGet bs "workspace_name" with
      | none => .ok none
      | some w => .ok (if pyTruthy w then some (.jobj [("name", w)]) else none)
    | some _ => .error .attributeError
  else .ok none

/-- `NotionAuthenticator.validate` from `auth.py`, as a function of the
outcome of its single GET to `/users/me`.  `.error` marks the places where
the Python code lets an exception escape (an `AttributeError` from calling
`.get` on a JSON body whose top level is not an object). -/
def validate (outcome : HttpOutcome) : Except PyExc AuthenticationResult :=
  match outcome with
  | .timeout =>
    .ok ⟨false, none, none, some (.jstr "Connection timeout while validating token")⟩
  | .connectionFailure =>
    .ok ⟨false, none, none, some (.jstr "Failed to connect to Notion API")⟩
  | .requestFailure m =>
    .ok ⟨false, none, none, some (.jstr ("Request failed: " ++ m))⟩
  | .response status text body =>
    if status = 401 then
      if text = "" then
        .ok ⟨false, none, none, some (.jstr "Invalid or expired token")⟩
      else
        match body with
        | none =>
          .ok ⟨false, none, none,
            some (.jstr ("Request failed: " ++ jsonDecodeFailureText))⟩
        | some (.jobj fields) =>
          .ok ⟨false, none, none,
            some ((dictGet fields "message").getD (.jstr "Invalid or expired token"))⟩
        | some _ => .error .attributeError
    else if status = 403 then
      .ok ⟨false, none, none,
        some (.jstr "Access forbidden - check integration permissions")⟩
    else if 400 ≤ status ∧ status < 600 then
      .ok ⟨false, none, none,
        some (.jstr ("Request failed: " ++ httpErrorText status))⟩
    else
      match body with
      | none =>
        .ok ⟨false, none, none,
          some (.jstr ("Request failed: " ++ jsonDecodeFailureText))⟩
      | some (.jobj fields) =>
        if isStrEq (dictGet fields "object") "user" then
          match botWorkspace fields with
          | .error e => .error e
          | .ok ws => .ok ⟨true, some (.jobj fields), ws, none⟩
        else
          .ok ⟨false, none, none,
            some (.jstr "Unexpected response from /users/me endpoint")⟩
      | some _ => .error .attributeError

/-! ## `client.py` — `NotionClient._paginate` -/

/-- One page response as `_paginate` consumes it: the `results` array, the
`has_more` flag (missing key defaults to false) and the `next_cursor`. -/
structure PageResponse (α : Type) where
  results : List α
  has_more : Bool
  next_cursor : Option String

/-- The condition under which `_paginate` requests a further page:
`has_more` is truthy and `next_cursor` is present and non-empty. -/
def continuesPagination {α : Type} (p : PageResponse α) : Bool :=
  p.has_more && (match p.next_cursor with | some c => c ≠ "" | none => false)

/-- `NotionClient._paginate` from `client.py`, as a function of the page
responses the server would return to its successive requests: yield every
item of the current page's `results`, then continue exactly when the page
continues the pagination. -/
def paginate {α : Type} : List (PageResponse α) → List α
  | [] => []
  | p :: rest => p.results ++ (if continuesPagination p then paginate rest else [])

/-- Modelled from the spec's words for comparison with `paginate`: the
number of pages fetched is one for the first request plus, while each page
"reports more results and supplies a next cursor" (non-empty), one more. -/
def specFetchCount {α : Type} : List (PageResponse α) → Nat
  | [] => 0
  | p :: rest =>
    1 + (if p.has_more &&
            (match p.next_cursor with | some c => c ≠ "" | none => false)
          then specFetchCount rest else 0)

/-! ## `client.py` — `NotionClient.get_all_blocks` -/

/-- A block as stored on the server: its id, its `has_children` flag, and
the children the children-listing endpoint would return for it.  The flag
is carried separately from the children so that the two can disagree, as
they can on the remote service. -/
inductive BlockNode where
  | node (id : String) (has_children : Bool) (children : List BlockNode)

/-- A block as `get_all_blocks` yields it: the block plus the synthesized
`_depth` and `_parent_id` traversal metadata. -/
structure TaggedBlock where
  id : String
  has_children : Bool
  depth : Nat
  parent_id : String
deriving DecidableEq, Repr

/-- `_fetch_recursive` from `NotionClient.get_all_blocks`: yield each child
tagged with the current depth and its parent's id, and recurse into it
exactly when its `has_children` flag is set and the current depth is still
below `max_depth`. -/
def fetchRecursive (parent_id : String) (current_depth max_depth : Nat) :
    List BlockNode → List TaggedBlock
  | [] => []
  | .node i hc children :: rest =>
    ⟨i, hc, current_depth, parent_id⟩ ::
      ((if hc ∧ current_depth < max_depth then
          fetchRecursive i (current_depth + 1) max_depth children
        else []) ++
        fetchRecursive parent_id current_depth max_depth rest)

/-- `NotionClient.get_all_blocks`: the recursive fetch started at the root
with depth 1 (`root_children` are the root's direct children as the server
would list them). -/
def get_all_blocks (root_id : String) (root_children : List BlockNode)
    (max_depth : Nat) : List TaggedBlock :=
  fetchRecursive root_id 1 max_depth root_children

/-! ## `connector.py` — `AirbyteMessage.connection_status` and
`NotionSourceConnector.check` -/

/-- The payload of a `CONNECTION_STATUS` message. -/
structure ConnStatusMessage where
  status : String
  message : Option String
deriving DecidableEq, Repr

/-- `AirbyteMessage.connection_status`: the message key is present only for
a truthy (supplied and non-empty) message. -/
def connection_status (status : String) (message : Option String) :
    ConnStatusMessage :=
  ⟨status,
    match message with
    | some m => if m = "" then none else some m
    | none => none⟩

/-- The data of a `NotionAPIError`, and `str(e)` for it as produced by
`NotionAPIError._format_message`. -/
structure ApiErrorInfo where
  status_code : Nat
  code : String
  message : String
  request_id : Option String
deriving DecidableEq, Repr

/-- `NotionAPIError._format_message`, which is also `str(e)`. -/
def apiErrorText (e : ApiErrorInfo) : String :=
  "[" ++ toString e.status_code ++ "] " ++ e.code ++ ": " ++ e.message ++
    (match e.request_id with
     | some rid => " (Request ID: " ++ rid ++ ")"
     | none => "")

/-- The observable outcome of the permission probe (`list(list_users())`):
the listed users, or the exception the probe raises. -/
inductive ProbeOutcome where
  | ok (users : List PyJson)
  | apiFailure (e : ApiErrorInfo)
  | connFailure (msg : String)
  | unexpectedFailure (msg : String)

/-- Stands for `str(e)` of a raised Python exception of the given kind (the
exact text depends on the interpreter). -/
def pyExcText : PyExc → String
  | .attributeError => "object has no attribute 'get'"
  | .typeError => "cannot compare naive and aware datetimes"

/-- `NotionSourceConnector.check` from `connector.py`, as a function of the
outcome of `authenticator.validate()` and of the permission probe.  Every
branch produces a `CONNECTION_STATUS` value; no exception escapes. -/
def check (auth : Except PyExc AuthenticationResult) (probe : ProbeOutcome) :
    ConnStatusMessage :=
  match auth with
  | .error e =>
    connection_status "FAILED" (some ("Unexpected error: " ++ pyExcText e))
  | .ok r =>
    if r.success = false then
      connection_status "FAILED"
        (some ("Authentication failed: " ++ pyStr (r.error.getD .jnull)))
    else
      match probe with
      | .apiFailure e =>
        if e.status_code = 403 then
          connection_status "FAILED"
            (some ("Integration does not have sufficient permissions. " ++
              "Please check the integration capabilities in Notion settings."))
        else connection_status "FAILED" (some (apiErrorText e))
      | .connFailure m => connection_status "FAILED" (some m)
      | .unexpectedFailure m =>
        connection_status "FAILED" (some ("Unexpected error: " ++ m))
      | .ok _ =>
        match r.user_info with
        | some (.jobj fields) =>
          connection_status "SUCCEEDED"
            (some ("Connected to Notion workspace as " ++
              pyStr ((dictGet fields "name").getD (.jstr "Bot"))))
        | _ =>
          connection_status "FAILED"
            (some ("Unexpected error: " ++ pyExcText .attributeError))

/-! ## Shared helper lemmas -/

/-- Filtering with the same predicate twice equals filtering once. -/
theorem filter_self_idem (p : Char → Bool) (l : List Char) :
    (l.filter p).filter p = l.filter p := by
  induction l with
  | nil => rfl
  | cons c cs ih => by_cases hc : p c <;> simp [List.filter_cons, hc, ih]

/-- Appending to a non-empty string yields a non-empty string. -/
theorem append_ne_empty_left (a b : String) (h : a.data ≠ []) : a ++ b ≠ "" := by
  intro hab
  apply h
  have hd : (a ++ b).data = a.data ++ b.data := String.data_append a b
  rw [hab] at hd
  exact (List.append_eq_nil.mp hd.symm).1

/-! ## Claim theorems -/

/-- C2: `RetryHandler.should_retry` is true exactly for the HTTP statuses
429, 500, 502, 503, 504 (and false for 200, 400, 401, 403, 404 and 409),
while `NotionAPIError.is_retryable` is true exactly for 409, 429, 500,
502, 503, 504; the two classifications disagree exactly at status 409. -/
theorem C2_retryable_status_sets :
    (should_retry 429 = true ∧ should_retry 500 = true ∧ should_retry 502 = true ∧
      should_retry 503 = true ∧ should_retry 504 = true) ∧
    (should_retry 200 = false ∧ should_retry 400 = false ∧ should_retry 401 = false ∧
      should_retry 403 = false ∧ should_retry 404 = false ∧ should_retry 409 = false) ∧
    (∀ s : Nat, should_retry s = true ↔
      s = 429 ∨ s = 500 ∨ s = 502 ∨ s = 503 ∨ s = 504) ∧
    (∀ s : Nat, is_retryable s = true ↔
      s = 409 ∨ s = 429 ∨ s = 500 ∨ s = 502 ∨ s = 503 ∨ s = 504) ∧
    (∀ s : Nat, should_retry s ≠ is_retryable s ↔ s = 409) := by
  refine ⟨by decide, by decide, fun s => ?_, fun s => ?_, fun s => ?_⟩
  all_goals simp [should_retry, is_retryable, RetryHandler.RETRYABLE_STATUS_CODES,
    NotionAPIError.RETRYABLE_STATUS_CODES]
  all_goals omega

/-- C3: `calculate_delay` returns `min retry_after max_delay` when a
retry-after hint is supplied and `min (base_delay * 2 ^ attempt) max_delay`
otherwise; with base 1.0 and max 60.0, attempts 0–3 give 1, 2, 4, 8, a
hint of 100 caps at 60, and with max 10.0 attempt 10 caps at 10. -/
theorem C3_calculate_delay :
    (∀ (base max_d r : ℚ) (attempt : Nat),
        calculate_delay base max_d attempt (some r) = min r max_d) ∧
    (∀ (base max_d : ℚ) (attempt : Nat),
        calculate_delay base max_d attempt none = min (base * 2 ^ attempt) max_d) ∧
    calculate_delay 1 60 0 none = 1 ∧
    calculate_delay 1 60 1 none = 2 ∧
    calculate_delay 1 60 2 none = 4 ∧
    calculate_delay 1 60 3 none = 8 ∧
    calculate_delay 1 10 10 none = 10 ∧
    calculate_delay 1 60 0 (some 30) = 30 ∧
    calculate_delay 1 60 7 (some 30) = 30 ∧
    calculate_delay 1 60 0 (some 100) = 60 := by
  refine ⟨fun _ _ _ _ => rfl, fun _ _ _ => rfl, ?_, ?_, ?_, ?_, ?_, ?_, ?_, ?_⟩ <;>
    norm_num [calculate_delay]

/-- C9: `get_auth_headers` returns exactly the three headers, with the
`Authorization` value equal to `"Bearer "` plus `get_token`'s result, and
`get_token` returns the token string for a token credential and the
access-token string for an OAuth2 credential. -/
theorem C9_auth_headers :
    (∀ (c : Credentials) (v : String),
      (get_auth_headers c v).length = 3 ∧
      get_auth_headers c v =
        [("Authorization", "Bearer " ++ get_token c),
         ("Notion-Version", v),
         ("Content-Type", "application/json")]) ∧
    (∀ t : String, get_token (.token t) = t) ∧
    (∀ (a b tok : String) (rt : Option String),
      get_token (.oauth2 a b tok rt) = tok) :=
  ⟨fun _ _ => ⟨rfl, rfl⟩, fun _ => rfl, fun _ _ _ _ => rfl⟩

/-- C8: for any string whose dash-stripped form has exactly 32 characters,
`format_notion_id (normalize_notion_id x)` is the canonical dashed
8-4-4-4-12 grouping of those characters, wherever `x` carried dashes; and
`format_notion_id` returns any input whose dash-stripped length is not 32
unchanged. -/
theorem C8_format_normalize_roundtrip :
    (∀ x : String, (x.data.filter (fun c => c ≠ '-')).length = 32 →
      format_notion_id (normalize_notion_id x) =
        canonicalDashedForm (x.data.filter (fun c => c ≠ '-'))) ∧
    (∀ x : String, (x.data.filter (fun c => c ≠ '-')).length ≠ 32 →
      format_notion_id x = x) := by
  constructor
  · intro x h
    show format_notion_id ⟨x.data.filter (fun c => c ≠ '-')⟩ = _
    rw [format_notion_id]
    simp only [filter_self_idem, h, if_pos rfl]
    rfl
  · intro x h
    simp only [format_notion_id]
    rw [if_neg h]

/-- Witness for C8 at a concrete dashed id and a concrete short id. -/
theorem C8_witness :
    format_notion_id (normalize_notion_id "12345678-1234-1234-1234-1234567890ab") =
      canonicalDashedForm
        ("12345678-1234-1234-1234-1234567890ab".data.filter (fun c => c ≠ '-')) ∧
    format_notion_id "abc" = "abc" :=
  ⟨C8_format_normalize_roundtrip.1 "12345678-1234-1234-1234-1234567890ab" (by decide),
   C8_format_normalize_roundtrip.2 "abc" (by decide)⟩

/-- C10: `safe_get_nested` returns the default whenever an intermediate
value is missing or not a dict, and also when the value at the final key is
explicitly null; with a non-empty key path the result is null only if the
default itself is null. -/
theorem C10_safe_get_nested_null :
    (∀ (data : PyJson) (keys : List String) (default : PyJson),
      keys ≠ [] → safe_get_nested data keys default = .jnull →
        default = .jnull) ∧
    (∀ (fields : List (String × PyJson)) (k : String) (ks : List String)
        (d : PyJson), dictGet fields k = some .jnull →
      safe_get_nested (.jobj fields) (k :: ks) d = d) ∧
    (∀ (fields : List (String × PyJson)) (k : String) (ks : List String)
        (d : PyJson), dictGet fields k = none →
      safe_get_nested (.jobj fields) (k :: ks) d = d) ∧
    (∀ (data : PyJson) (k : String) (ks : List String) (d : PyJson),
      (∀ fs, data ≠ .jobj fs) → safe_get_nested data (k :: ks) d = d) := by
  refine ⟨?_, ?_, ?_, ?_⟩
  · intro data keys
    induction keys generalizing data with
    | nil => intro d h; exact absurd rfl h
    | cons k ks ih =>
      intro d _ h
      cases data with
      | jobj fields =>
        rw [safe_get_nested] at h
        cases hd : dictGet fields k with
        | none => rw [hd] at h; exact h
        | some v =>
          rw [hd] at h
          cases v with
          | jnull => exact h
          | jbool b =>
            cases ks with
            | nil => exact PyJson.noConfusion h
            | cons k2 ks2 => exact ih _ d (by simp) h
          | jnum n =>
            cases ks with
            | nil => exact PyJson.noConfusion h
            | cons k2 ks2 => exact ih _ d (by simp) h
          | jstr s =>
            cases ks with
            | nil => exact PyJson.noConfusion h
            | cons k2 ks2 => exact ih _ d (by simp) h
          | jarr xs =>
            cases ks with
            | nil => exact PyJson.noConfusion h
            | cons k2 ks2 => exact ih _ d (by simp) h
          | jobj fs =>
            cases ks with
            | nil => exact PyJson.noConfusion h
            | cons k2 ks2 => exact ih _ d (by simp) h
      | jnull => exact h
      | jbool b => exact h
      | jnum n => exact h
      | jstr s => exact h
      | jarr xs => exact h
  · intro fields k ks d h
    rw [safe_get_nested, h]
  · intro fields k ks d h
    rw [safe_get_nested, h]
  · intro data k ks d h
    cases data with
    | jobj fs => exact absurd rfl (h fs)
    | jnull => rfl
    | jbool b => rfl
    | jnum n => rfl
    | jstr s => rfl
    | jarr xs => rfl

/-- Witness for C10: a present key bound to null yields the default, and a
null result forces a null default. -/
theorem C10_witness :
    safe_get_nested (.jobj [("a", .jnull)]) ["a"] (.jstr "dflt") = .jstr "dflt" ∧
    PyJson.jnull = PyJson.jnull :=
  ⟨C10_safe_get_nested_null.2.1 [("a", .jnull)] "a" [] (.jstr "dflt") rfl,
   C10_safe_get_nested_null.1 (.jobj [("a", .jstr "x")]) ["b"] .jnull
     (by simp) rfl⟩

/-- C1 (amended): for an incremental-capable stream with a cursor field,
`_should_include_record` returns true when the sync mode is not
incremental, when the record's cursor value is absent or falsy, when no
last-sync-time is stored, or when the cursor string fails to parse;
otherwise — provided the two parsed datetimes agree in timezone-awareness —
it returns true exactly when the record's cursor datetime is strictly
greater than the stored last-sync-time (so an exact boundary match is
excluded); a mixed naive/aware pair makes the comparison raise `TypeError`
instead of returning. -/
theorem C1_should_include_record (cf : String)
    (state record : List (String × PyJson)) (mode s : String)
    (hcf : cf ≠ "") :
    (mode ≠ "incremental" →
      should_include_record true (some cf) state record mode = .ok true) ∧
    (dictGet record cf = none →
      should_include_record true (some cf) state record "incremental" = .ok true) ∧
    (∀ cv, dictGet record cf = some cv → pyTruthy cv = false →
      should_include_record true (some cf) state record "incremental" = .ok true) ∧
    (∀ cv, dictGet record cf = some cv → pyTruthy cv = true →
      get_last_sync_time state = .ok none →
      should_include_record true (some cf) state record "incremental" = .ok true) ∧
    (∀ ls, dictGet record cf = some (.jstr s) → s ≠ "" →
      get_last_sync_time state = .ok (some ls) → parse_iso_datetime s = none →
      should_include_record true (some cf) state record "incremental" = .ok true) ∧
    (∀ ls rt, dictGet record cf = some (.jstr s) →
      get_last_sync_time state = .ok (some ls) → parse_iso_datetime s = some rt →
      sameAware rt ls = true →
      should_include_record true (some cf) state record "incremental" =
        .ok (instantUs rt > instantUs ls)) ∧
    (∀ ls rt, dictGet record cf = some (.jstr s) →
      get_last_sync_time state = .ok (some ls) → parse_iso_datetime s = some rt →
      sameAware rt ls = false →
      should_include_record true (some cf) state record "incremental" =
        .error .typeError) := by
  have hs : ∀ rt, parse_iso_datetime s = some rt → s ≠ "" := by
    intro rt hp hempty
    rw [hempty] at hp
    simp [parse_iso_datetime] at hp
  refine ⟨?_, ?_, ?_, ?_, ?_, ?_, ?_⟩
  · intro hmode
    rw [should_include_record, if_pos (Or.inl hmode)]
  · intro hget
    simp [should_include_record, hcf, hget]
  · intro cv hget htr
    simp [should_include_record, hcf, hget, htr]
  · intro cv hget htr hsync
    simp [should_include_record, hcf, hget, htr, hsync]
  · intro ls hget hne hsync hp
    simp [should_include_record, hcf, hget, hsync, hp, pyTruthy, hne]
  · intro ls rt hget hsync hp haw
    simp [should_include_record, hcf, hget, hsync, hp, haw, pyTruthy, hs rt hp]
  · intro ls rt hget hsync hp haw
    simp [should_include_record, hcf, hget, hsync, hp, haw, pyTruthy, hs rt hp]

/-- Witness for C1 at the §8 example: with a stored last-sync-time `T`, a
record at `T + 1 s` is included and a record at exactly `T` is excluded. -/
theorem C1_witness :
    should_include_record true (some "last_edited_time")
      [("last_sync_time", .jstr "2024-01-05T00:00:00Z")]
      [("last_edited_time", .jstr "2024-01-05T00:00:01Z")] "incremental" =
        .ok true ∧
    should_include_record true (some "last_edited_time")
      [("last_sync_time", .jstr "2024-01-05T00:00:00Z")]
      [("last_edited_time", .jstr "2024-01-05T00:00:00Z")] "incremental" =
        .ok false := by
  constructor
  · have h := (C1_should_include_record "last_edited_time"
      [("last_sync_time", .jstr "2024-01-05T00:00:00Z")]
      [("last_edited_time", .jstr "2024-01-05T00:00:01Z")]
      "incremental" "2024-01-05T00:00:01Z" (by decide)).2.2.2.2.2.1
      ⟨2024, 1, 5, 0, 0, 0, 0, some 0⟩ ⟨2024, 1, 5, 0, 0, 1, 0, some 0⟩
      rfl rfl rfl rfl
    exact h.trans rfl
  · have h := (C1_should_include_record "last_edited_time"
      [("last_sync_time", .jstr "2024-01-05T00:00:00Z")]
      [("last_edited_time", .jstr "2024-01-05T00:00:00Z")]
      "incremental" "2024-01-05T00:00:00Z" (by decide)).2.2.2.2.2.1
      ⟨2024, 1, 5, 0, 0, 0, 0, some 0⟩ ⟨2024, 1, 5, 0, 0, 0, 0, some 0⟩
      rfl rfl rfl rfl
    exact h.trans rfl

/-- Counterexample to C1 as stated: a naive stored last-sync-time
(`"2024-01-05"`, parsed by the bare-date fallback) and an aware record
cursor (`"2024-01-06T00:00:00Z"`): both parse, the record's datetime is the
later one, yet `_should_include_record` raises `TypeError` from the mixed
naive/aware comparison instead of returning true. -/
theorem C1_counterexample :
    should_include_record true (some "last_edited_time")
      [("last_sync_time", .jstr "2024-01-05")]
      [("last_edited_time", .jstr "2024-01-06T00:00:00Z")] "incremental" =
        .error .typeError ∧
    should_include_record true (some "last_edited_time")
      [("last_sync_time", .jstr "2024-01-05")]
      [("last_edited_time", .jstr "2024-01-06T00:00:00Z")] "incremental" ≠
        .ok true :=
  ⟨rfl, fun hc => Except.noConfusion hc⟩

/-- C5: `_paginate` yields every item of every fetched page's `results`
array in order, where the number of fetched pages is, as the spec words it,
one plus one more while each page has `has_more` set and a present,
non-empty `next_cursor`; in particular a `has_more` page with a missing
cursor stops the sequence. -/
theorem C5_paginate :
    (∀ (α : Type) (pages : List (PageResponse α)),
      paginate pages =
        ((pages.take (specFetchCount pages)).map (fun p => p.results)).flatten) ∧
    paginate [({ results := [10], has_more := true, next_cursor := some "c" } :
        PageResponse Nat),
      { results := [20, 30], has_more := false, next_cursor := none }] =
        [10, 20, 30] ∧
    paginate [({ results := [10], has_more := true, next_cursor := none } :
        PageResponse Nat),
      { results := [20, 30], has_more := false, next_cursor := none }] = [10] := by
  refine ⟨fun α pages => ?_, by decide, by decide⟩
  induction pages with
  | nil => rfl
  | cons p rest ih =>
    by_cases h : continuesPagination p = true
    · have h2 := h
      rw [continuesPagination] at h2
      rw [paginate, specFetchCount, if_pos h, h2, if_pos rfl, Nat.one_add,
        List.take_succ_cons, List.map_cons, List.flatten_cons, ih]
    · have h2 : (p.has_more &&
          (match p.next_cursor with | some c => decide (c ≠ "") | none => false)) =
            false := by
        rw [← continuesPagination, Bool.eq_false_iff]
        exact h
      rw [paginate, specFetchCount, if_neg h, h2]
      simp

/-- At the maximum depth the traversal only tags the blocks, never
recursing into children. -/
theorem fetchRecursive_at_max (pid : String) (m : Nat) (bs : List BlockNode) :
    fetchRecursive pid m m bs =
      bs.map (fun b => match b with | .node i hc _ => ⟨i, hc, m, pid⟩) := by
  induction bs with
  | nil => simp [fetchRecursive]
  | cons b rest ih =>
    cases b with
    | node i hc cs => simp [fetchRecursive, ih]

/-- Every block yielded from depth `d ≤ m` carries a depth between `d` and
`m` (proved by induction on the remaining depth budget). -/
theorem fetchRecursive_depth_bound :
    ∀ (k : Nat) (pid : String) (d m : Nat) (bs : List BlockNode),
      d ≤ m → m - d ≤ k →
      ∀ t ∈ fetchRecursive pid d m bs, d ≤ t.depth ∧ t.depth ≤ m := by
  intro k
  induction k with
  | zero =>
    intro pid d m bs hdm hk t ht
    have hdm2 : d = m := by omega
    subst hdm2
    rw [fetchRecursive_at_max] at ht
    rw [List.mem_map] at ht
    obtain ⟨b, _, hb⟩ := ht
    cases b with
    | node i hc cs =>
      simp only at hb
      rw [← hb]
      exact ⟨le_refl _, le_refl _⟩
  | succ k ih =>
    intro pid d m bs hdm hk
    induction bs with
    | nil => intro t ht; simp [fetchRecursive] at ht
    | cons b rest ihrest =>
      cases b with
      | node i hc cs =>
        intro t ht
        rw [fetchRecursive] at ht
        rw [List.mem_cons, List.mem_append] at ht
        rcases ht with rfl | ht | ht
        · exact ⟨le_refl _, hdm⟩
        · by_cases hcond : hc = true ∧ d < m
          · rw [if_pos hcond] at ht
            have hb := ih i (d + 1) m cs (by omega) (by omega) t ht
            exact ⟨by omega, hb.2⟩
          · rw [if_neg hcond] at ht
            simp at ht
        · exact ihrest t ht

/-- C6: the recursive block fetch tags each yielded block with its (1-based)
depth and its parent's id and recurses into it exactly when its
`has_children` flag is set and its depth is strictly below the maximum;
blocks at the maximum depth are never expanded (their subtrees are
dropped), every yielded depth lies between 1 and the maximum, and on a
depth-3 tree with maximum depth 2 the traversal yields the depth-1 and
depth-2 blocks only, although the depth-2 block reports children. -/
theorem C6_get_all_blocks :
    (∀ (pid i : String) (hc : Bool) (cs rest : List BlockNode) (d m : Nat),
      fetchRecursive pid d m (.node i hc cs :: rest) =
        ⟨i, hc, d, pid⟩ ::
          ((if hc = true ∧ d < m then fetchRecursive i (d + 1) m cs else []) ++
            fetchRecursive pid d m rest)) ∧
    (∀ (pid : String) (m : Nat) (bs : List BlockNode),
      fetchRecursive pid m m bs =
        bs.map (fun b => match b with | .node i hc _ => ⟨i, hc, m, pid⟩)) ∧
    (∀ (root : String) (cs : List BlockNode) (m : Nat), 1 ≤ m →
      ∀ t ∈ get_all_blocks root cs m, 1 ≤ t.depth ∧ t.depth ≤ m) ∧
    get_all_blocks "root" [.node "c1" true [.node "c2" true [.node "c3" false []]]] 2 =
      [⟨"c1", true, 1, "root"⟩, ⟨"c2", true, 2, "c1"⟩] := by
  refine ⟨?_, fetchRecursive_at_max, ?_, ?_⟩
  · intro pid i hc cs rest d m
    rw [fetchRecursive]
  · intro root cs m hm t ht
    exact fetchRecursive_depth_bound (m - 1) root 1 m cs hm (by omega) t ht
  · simp [get_all_blocks, fetchRecursive]

/-- Witness for C6: the depth-bound clause applied to a concrete traversal
with maximum depth 2. -/
theorem C6_witness :
    1 ≤ (⟨"c2", true, 2, "c1"⟩ : TaggedBlock).depth ∧
    (⟨"c2", true, 2, "c1"⟩ : TaggedBlock).depth ≤ 2 :=
  C6_get_all_blocks.2.2.1 "root"
    [.node "c1" true [.node "c2" true [.node "c3" false []]]] 2 (by omega)
    ⟨"c2", true, 2, "c1"⟩ (by simp [get_all_blocks, fetchRecursive])

/-- Appending onto a string with non-empty data keeps the data non-empty. -/
theorem append_data_ne_nil (a b : String) (h : a.data ≠ []) :
    (a ++ b).data ≠ [] := by
  rw [String.data_append]
  intro hx
  exact h (List.append_eq_nil.mp hx).1

/-- C4 (amended): every outcome of the `/users/me` request — a 401, a 403,
any other 4xx/5xx status, a success status whose body is unparseable or
parses to a non-user object, and every request-level failure — is returned
by `validate` as an `AuthenticationResult` value; the exception is a body
that parses to JSON whose top level is not an object (or a bot user whose
`bot` field is not an object), where the dictionary access raises an
`AttributeError` that `validate` does not catch. -/
theorem C4_validate_total (status : Nat) (text m : String) (body : Option PyJson)
    (fields : List (String × PyJson)) :
    (validate .timeout = .ok ⟨false, none, none,
        some (.jstr "Connection timeout while validating token")⟩) ∧
    (validate .connectionFailure = .ok ⟨false, none, none,
        some (.jstr "Failed to connect to Notion API")⟩) ∧
    (validate (.requestFailure m) = .ok ⟨false, none, none,
        some (.jstr ("Request failed: " ++ m))⟩) ∧
    (text ≠ "" → validate (.response 401 text (some (.jobj fields))) =
      .ok ⟨false, none, none,
        some ((dictGet fields "message").getD (.jstr "Invalid or expired token"))⟩) ∧
    (validate (.response 401 "" body) = .ok ⟨false, none, none,
        some (.jstr "Invalid or expired token")⟩) ∧
    (validate (.response 403 text body) = .ok ⟨false, none, none,
        some (.jstr "Access forbidden - check integration permissions")⟩) ∧
    (400 ≤ status → status < 600 → status ≠ 401 → status ≠ 403 →
      validate (.response status text body) = .ok ⟨false, none, none,
        some (.jstr ("Request failed: " ++ httpErrorText status))⟩) ∧
    (status < 400 → validate (.response status text none) = .ok ⟨false, none, none,
        some (.jstr ("Request failed: " ++ jsonDecodeFailureText))⟩) ∧
    (status < 400 → isStrEq (dictGet fields "object") "user" = false →
      validate (.response status text (some (.jobj fields))) = .ok ⟨false, none, none,
        some (.jstr "Unexpected response from /users/me endpoint")⟩) ∧
    (status < 400 → isStrEq (dictGet fields "object") "user" = true →
      ∀ ws, botWorkspace fields = .ok ws →
        validate (.response status text (some (.jobj fields))) =
          .ok ⟨true, some (.jobj fields), ws, none⟩) := by
  refine ⟨rfl, rfl, rfl, ?_, ?_, ?_, ?_, ?_, ?_, ?_⟩
  · intro htext
    simp [validate, htext]
  · simp [validate]
  · simp [validate]
  · intro h1 h2 h3 h4
    simp [validate, h1, h2, h3, h4]
  · intro h1
    have h401 : ¬status = 401 := by omega
    have h403 : ¬status = 403 := by omega
    have hrange : ¬(400 ≤ status ∧ status < 600) := by omega
    simp [validate, h401, h403, hrange]
  · intro h1 huser
    have h401 : ¬status = 401 := by omega
    have h403 : ¬status = 403 := by omega
    have hrange : ¬(400 ≤ status ∧ status < 600) := by omega
    simp [validate, h401, h403, hrange, huser]
  · intro h1 huser ws hws
    have h401 : ¬status = 401 := by omega
    have h403 : ¬status = 403 := by omega
    have hrange : ¬(400 ≤ status ∧ status < 600) := by omega
    simp [validate, h401, h403, hrange, huser, hws]

/-- Witness for C4: a 401 with a JSON-object error body returns the server
message, and a success response with a user-object body returns success. -/
theorem C4_witness :
    validate (.response 401 "body" (some (.jobj [("message", .jstr "nope")]))) =
      .ok ⟨false, none, none, some (.jstr "nope")⟩ ∧
    validate (.response 200 "ok"
        (some (.jobj [("object", .jstr "user"), ("name", .jstr "N")]))) =
      .ok ⟨true, some (.jobj [("object", .jstr "user"), ("name", .jstr "N")]),
        none, none⟩ := by
  constructor
  · exact ((C4_validate_total 401 "body" "" none
      [("message", .jstr "nope")]).2.2.2.1 (by decide)).trans rfl
  · exact (C4_validate_total 200 "ok" "" none
      [("object", .jstr "user"), ("name", .jstr "N")]).2.2.2.2.2.2.2.2.2
      (by omega) rfl none rfl

/-- Counterexample to C4 as stated: a success response whose body parses to
the JSON array `[1]` — a success response whose body is not a user object —
makes `validate` raise `AttributeError` (calling `.get` on a list) instead
of returning a failure result. -/
theorem C4_counterexample :
    validate (.response 200 "[1]" (some (.jarr [.jnum 1]))) =
        .error .attributeError ∧
    (∀ r : AuthenticationResult,
      validate (.response 200 "[1]" (some (.jarr [.jnum 1]))) ≠ .ok r) :=
  ⟨rfl, fun _ hc => Except.noConfusion hc⟩

/-- `str(e)` of a `NotionAPIError` is never the empty string. -/
theorem apiErrorText_ne_empty (e : ApiErrorInfo) : apiErrorText e ≠ "" := by
  unfold apiErrorText
  apply append_ne_empty_left
  apply append_data_ne_nil
  apply append_data_ne_nil
  apply append_data_ne_nil
  apply append_data_ne_nil
  apply append_data_ne_nil
  decide

/-- C7: `check` always returns a connection-status value whose status is
`SUCCEEDED` or `FAILED` — never an escaped exception; it succeeds with a
message naming the authenticated user (falling back to `Bot` when the user
object has no `name` key) exactly when validation succeeded and the probe
returned; a 403 from the probe gives the fixed insufficient-permissions
message, a failed validation gives `Authentication failed:` plus the
authenticator's message, a non-403 API error gives that error's text, and
any other probe failure or escaped validation exception is wrapped as
`Unexpected error:` rather than propagated. -/
theorem C7_check (auth : Except PyExc AuthenticationResult)
    (probe : ProbeOutcome) (r : AuthenticationResult) (e : ApiErrorInfo)
    (fields : List (String × PyJson)) (users : List PyJson) (name : String) :
    ((check auth probe).status = "SUCCEEDED" ∨
      (check auth probe).status = "FAILED") ∧
    (r.success = true → r.user_info = some (.jobj fields) →
      dictGet fields "name" = some (.jstr name) →
      check (.ok r) (.ok users) =
        ⟨"SUCCEEDED", some ("Connected to Notion workspace as " ++ name)⟩) ∧
    (r.success = true → r.user_info = some (.jobj fields) →
      dictGet fields "name" = none →
      check (.ok r) (.ok users) =
        ⟨"SUCCEEDED", some "Connected to Notion workspace as Bot"⟩) ∧
    (r.success = true → e.status_code = 403 →
      check (.ok r) (.apiFailure e) =
        ⟨"FAILED", some ("Integration does not have sufficient permissions. " ++
          "Please check the integration capabilities in Notion settings.")⟩) ∧
    (∀ msg, r.success = false → r.error = some (.jstr msg) →
      check (.ok r) probe =
        ⟨"FAILED", some ("Authentication failed: " ++ msg)⟩) ∧
    (r.success = true → e.status_code ≠ 403 →
      check (.ok r) (.apiFailure e) = ⟨"FAILED", some (apiErrorText e)⟩) ∧
    (∀ msg, msg ≠ "" → r.success = true →
      check (.ok r) (.connFailure msg) = ⟨"FAILED", some msg⟩) ∧
    (∀ msg, r.success = true →
      check (.ok r) (.unexpectedFailure msg) =
        ⟨"FAILED", some ("Unexpected error: " ++ msg)⟩) ∧
    (∀ exc, check (.error exc) probe =
      ⟨"FAILED", some ("Unexpected error: " ++ pyExcText exc)⟩) := by
  refine ⟨?_, ?_, ?_, ?_, ?_, ?_, ?_, ?_, ?_⟩
  · cases auth with
    | error exc => right; simp [check, connection_status]
    | ok r0 =>
      by_cases hr : r0.success = false
      · right; simp [check, hr, connection_status]
      · cases probe with
        | ok users0 =>
          cases hui : r0.user_info with
          | none => right; simp [check, hr, hui, connection_status]
          | some j =>
            cases j with
            | jobj fs => left; simp [check, hr, hui, connection_status,
                append_ne_empty_left "Connected to Notion workspace as " _ (by decide)]
            | jnull => right; simp [check, hr, hui, connection_status]
            | jbool b => right; simp [check, hr, hui, connection_status]
            | jnum n => right; simp [check, hr, hui, connection_status]
            | jstr s => right; simp [check, hr, hui, connection_status]
            | jarr xs => right; simp [check, hr, hui, connection_status]
        | apiFailure e0 =>
          by_cases he : e0.status_code = 403 <;>
            (right; simp [check, hr, he, connection_status])
        | connFailure msg => right; simp [check, hr, connection_status]
        | unexpectedFailure msg => right; simp [check, hr, connection_status]
  · intro hsucc hui hname
    have hne := append_ne_empty_left "Connected to Notion workspace as " name
      (by decide)
    simp [check, hsucc, hui, hname, connection_status, pyStr, hne]
  · intro hsucc hui hname
    simp [check, hsucc, hui, hname, connection_status, pyStr]
  · intro hsucc he
    simp [check, hsucc, he, connection_status]
  · intro msg hfail herr
    have hne := append_ne_empty_left "Authentication failed: " msg (by decide)
    simp [check, hfail, herr, connection_status, pyStr, hne]
  · intro hsucc he
    simp [check, hsucc, he, connection_status, apiErrorText_ne_empty e]
  · intro msg hne hsucc
    simp [check, hsucc, connection_status, hne]
  · intro msg hsucc
    have hne := append_ne_empty_left "Unexpected error: " msg (by decide)
    simp [check, hsucc, connection_status, hne]
  · intro exc
    have hne := append_ne_empty_left "Unexpected error: " (pyExcText exc)
      (by decide)
    simp [check, connection_status, hne]

/-- Witness for C7: a successful validation with a named bot and a clean
probe yields SUCCEEDED with the bot's name; a 403 probe yields the fixed
permission message; a failed validation yields the authenticator's text. -/
theorem C7_witness :
    check (.ok ⟨true, some (.jobj [("name", .jstr "My Bot")]), none, none⟩)
        (.ok []) =
      ⟨"SUCCEEDED", some "Connected to Notion workspace as My Bot"⟩ ∧
    check (.ok ⟨true, some (.jobj []), none, none⟩)
        (.apiFailure ⟨403, "restricted_resource", "denied", none⟩) =
      ⟨"FAILED", some ("Integration does not have sufficient permissions. " ++
        "Please check the integration capabilities in Notion settings.")⟩ ∧
    check (.ok ⟨false, none, none, some (.jstr "bad token")⟩) (.ok []) =
      ⟨"FAILED", some "Authentication failed: bad token"⟩ := by
  refine ⟨?_, ?_, ?_⟩
  · exact ((C7_check (.ok ⟨true, some (.jobj [("name", .jstr "My Bot")]), none, none⟩)
      (.ok []) ⟨true, some (.jobj [("name", .jstr "My Bot")]), none, none⟩
      ⟨403, "", "", none⟩ [("name", .jstr "My Bot")] [] "My Bot").2.1
      rfl rfl rfl).trans rfl
  · exact (C7_check (.ok ⟨true, some (.jobj []), none, none⟩)
      (.apiFailure ⟨403, "restricted_resource", "denied", none⟩)
      ⟨true, some (.jobj []), none, none⟩
      ⟨403, "restricted_resource", "denied", none⟩ [] [] "").2.2.2.1 rfl rfl
  · exact (C7_check (.ok ⟨false, none, none, some (.jstr "bad token")⟩)
      (.ok []) ⟨false, none, none, some (.jstr "bad token")⟩
      ⟨403, "", "", none⟩ [] [] "").2.2.2.2.1 "bad token" rfl rfl

end NotionSrc
